import Mathlib

/-!
Verification development for the Motor-ODM document layer
(`motor_odm/document.py`): storage-configuration inheritance
(`DocumentMetaclass`), partial-document serialization (`Document.mongo`),
and the CRUD protocol (`insert`, `replace`, `update`, `reload`,
`find_one`, `find_one_and_replace`, `collection`).

The external collaborators (the pydantic validation engine and the motor
driver) are abstracted: driver calls appear as explicit result-descriptor
parameters, and validation as a deterministic constructor from a raw
document. Python object identity is modelled by a small heap of record
instances indexed by natural-number references.
-/

set_option autoImplicit false

namespace MotorODM

/-- The reserved identifier key (`"_id"`), the storage alias of `Document.id`. -/
def reservedKey : String := "_id"

/-- Storage configuration of a record type, mirroring the attributes of
`MongoBase`: `collection`, `codec_options`, `read_preference`,
`write_concern`, `read_concern`. All fields are optional; `none` means the
field was not declared (in Python: the attribute is absent / null). The
four policy fields are opaque to this layer and share one type parameter
`V`. -/
structure MongoConfig (V : Type) where
  collection : Option String
  codec_options : Option V
  read_preference : Option V
  write_concern : Option V
  read_concern : Option V
deriving DecidableEq, Repr

/-- The `MongoBase` defaults: `collection` is only annotated (absent), the
four policies default to null. -/
def mongoBase (V : Type) : MongoConfig V := ⟨none, none, none, none, none⟩

/-- Modelled from the spec: `inherit_class` (from `motor_odm/helpers.py`,
which is not part of the sources under verification) merges a child `Mongo`
class onto a parent one. Per spec section 4.1 the merge overlays
field-by-field, skipping null fields, so the child's declaration wins
exactly when it is non-null. -/
def inherit_class {V : Type} (child parent : MongoConfig V) : MongoConfig V :=
  { collection := child.collection.orElse fun _ => parent.collection
    codec_options := child.codec_options.orElse fun _ => parent.codec_options
    read_preference := child.read_preference.orElse fun _ => parent.read_preference
    write_concern := child.write_concern.orElse fun _ => parent.write_concern
    read_concern := child.read_concern.orElse fun _ => parent.read_concern }

/-- The merging loop of `DocumentMetaclass.__new__` (document.py lines
92-98): start from `MongoBase`, fold the bases' effective configs in
reverse declaration order, then overlay the namespace's own `Mongo` class
(when one was declared). -/
def resolveMongo {V : Type} (baseEffs : List (MongoConfig V))
    (own : Option (MongoConfig V)) : MongoConfig V :=
  let mongo := baseEffs.reverse.foldl (fun acc b => inherit_class b acc) (mongoBase V)
  match own with
  | none => mongo
  | some c => inherit_class c mongo

/-- Full `DocumentMetaclass.__new__` (document.py lines 89-107): resolve
the merged `Mongo` config, then, for every class other than the root
`Document` class itself, fail with a `TypeError` at type-declaration time
when the merged config has no collection. -/
def documentMetaclassNew {V : Type} (name : String)
    (baseEffs : List (MongoConfig V)) (own : Option (MongoConfig V))
    (isRoot : Bool) : Except String (MongoConfig V) :=
  let mongo := resolveMongo baseEffs own
  if isRoot = false ∧ mongo.collection = none then
    .error (name ++ " does not define a collection.")
  else
    .ok mongo

/-- Effective config of a type at the end of a linear inheritance chain.
The chain is listed root-first; each element is the `Mongo` class the type
at that depth declared (`none` when it declared no `Mongo` class). Each
step is one `DocumentMetaclass.__new__` merge with a single base. -/
def chainEffective {V : Type} (chain : List (Option (MongoConfig V))) : MongoConfig V :=
  chain.foldl (fun acc own => resolveMongo [acc] own) (mongoBase V)

/-- Deepest-wins selection on a root-first list of declared values: the
last (deepest) non-null element, or `none` when no element is set. -/
def deepestSet {α : Type} : List (Option α) → Option α
  | [] => none
  | o :: rest => (deepestSet rest).orElse fun _ => o

lemma orElse_none_right {α : Type} (x : Option α) :
    (x.orElse fun _ => (none : Option α)) = x := by
  cases x <;> rfl

lemma orElse_assoc {α : Type} (a : Option α) (b c : Unit → Option α) :
    ((a.orElse b).orElse c) = a.orElse fun _ => ((b ()).orElse c) := by
  cases a <;> rfl

lemma inherit_class_mongoBase {V : Type} (c : MongoConfig V) :
    inherit_class c (mongoBase V) = c := by
  cases c
  simp [inherit_class, mongoBase, orElse_none_right]

lemma resolveMongo_single_none {V : Type} (acc : MongoConfig V) :
    resolveMongo [acc] none = acc := by
  simp [resolveMongo, inherit_class_mongoBase]

lemma resolveMongo_single_some {V : Type} (acc c : MongoConfig V) :
    resolveMongo [acc] (some c) = inherit_class c acc := by
  simp [resolveMongo, inherit_class_mongoBase]

/-- Projection of the chain fold through any field getter that commutes
with `inherit_class` in the overlay sense. -/
lemma chainEffective_proj {V β : Type} (f : MongoConfig V → Option β)
    (hf : ∀ c p, f (inherit_class c p) = (f c).orElse fun _ => f p)
    (chain : List (Option (MongoConfig V))) (acc : MongoConfig V) :
    f (chain.foldl (fun a o => resolveMongo [a] o) acc)
      = (deepestSet (chain.map fun o => o.bind f)).orElse fun _ => f acc := by
  induction chain generalizing acc with
  | nil => simp [deepestSet]
  | cons o rest ih =>
    rw [List.foldl_cons, ih, List.map_cons]
    simp only [deepestSet]
    rw [orElse_assoc]
    congr 1
    funext u
    cases o with
    | none => rw [resolveMongo_single_none]; rfl
    | some c => rw [resolveMongo_single_some]; exact hf c acc

lemma chainEffective_field {V β : Type} (f : MongoConfig V → Option β)
    (hf : ∀ c p, f (inherit_class c p) = (f c).orElse fun _ => f p)
    (hbase : f (mongoBase V) = none)
    (chain : List (Option (MongoConfig V))) :
    f (chainEffective chain) = deepestSet (chain.map fun o => o.bind f) := by
  rw [chainEffective, chainEffective_proj f hf chain (mongoBase V), hbase,
    orElse_none_right]

/-- One pydantic model field of a `Document` instance: its storage alias,
its declared default and its current value. Values are opaque to this
layer; all fields (the identifier included) share the value type `V`. -/
structure PyField (V : Type) where
  alias_ : String
  default : V
  value : V
deriving DecidableEq, Repr

/-- One `Document` instance (document.py line 110): the `id` field
(default `None`, alias `"_id"`; `none` means the identifier is unset) plus
the remaining declared fields in declaration order. -/
structure Document (V : Type) where
  id : Option V
  fields : List (PyField V)
deriving DecidableEq, Repr

/-- Key lookup in a raw document (a Python `dict` modelled as an
association list). -/
def lookupKey {V : Type} : List (String × V) → String → Option V
  | [], _ => none
  | (k2, v) :: rest, k => if k2 = k then some v else lookupKey rest k

/-- The pydantic `BaseModel.dict` call made by `Document.mongo`
(document.py line 188) with `by_alias=True`, `exclude_defaults=True` and
no include/exclude filters. The external serializer emits, in declaration
order, every field whose current value differs from its declared default,
keyed by its alias; `id` (declared first, default `None`) is emitted under
`"_id"` exactly when it is set. -/
def dictByAliasExcludeDefaults {V : Type} [DecidableEq V] (self : Document V) :
    List (String × V) :=
  (match self.id with
   | none => []
   | some v => [(reservedKey, v)])
  ++ self.fields.filterMap fun f =>
      if f.value = f.default then none else some (f.alias_, f.value)

/-- `Document.mongo` (document.py lines 181-193): serialize via
`self.dict(by_alias=True, exclude_defaults=True)`, then
`document.pop("_id", None)` when `self.id is None`. -/
def mongoMethod {V : Type} [DecidableEq V] (self : Document V) : List (String × V) :=
  let document := dictByAliasExcludeDefaults self
  match self.id with
  | none => document.filter fun p => p.1 ≠ reservedKey
  | some _ => document

/-- The external pydantic validator invoked as `cls(**doc)`: given the
class's field declarations (alias and default, in declaration order) and a
raw document, it builds a record taking each field's value from the
document under the field's alias (falling back to the declared default)
and the identifier from the reserved `"_id"` key. -/
def validateDoc {V : Type} (decls : List (String × V)) (doc : List (String × V)) :
    Document V :=
  { id := lookupKey doc reservedKey
    fields := decls.map fun d => ⟨d.1, d.2, (lookupKey doc d.1).getD d.2⟩ }

/-- Result descriptor of the driver's `insert_one`. -/
structure InsertOneResult (V : Type) where
  inserted_id : V
deriving DecidableEq, Repr

/-- Result descriptor of the driver's `replace_one`: `upserted_id` is null
unless the replace upserted. -/
structure ReplaceOneResult (V : Type) where
  upserted_id : Option V
deriving DecidableEq, Repr

/-- Result descriptor of the driver's `update_one`. -/
structure UpdateResult where
  modified_count : Nat
deriving DecidableEq, Repr

/-- Faults raised by the CRUD layer itself: `assertionError` for a failed
`assert self.id is not None` precondition, `typeError` for the
`cls(**None)` call `reload` makes when `find_one` returned no document. -/
inductive OpError where
  | assertionError
  | typeError
deriving DecidableEq, Repr

/-- A request the CRUD layer sends to the driver (recorded to state which
calls an operation makes). -/
inductive DriverCall (V : Type) where
  | updateOne (filter : List (String × V)) (updateSpec : List (String × V))
deriving DecidableEq, Repr

/-- `Document.insert` (document.py lines 195-201): `await insert_one`
first — when the driver raises, the exception propagates and the instance
is untouched — then `self.id = result.inserted_id`. The driver's response
(success descriptor or raised error `E`) is the `result` parameter; the
returned pair is the instance's state after the call and the propagated
error, if any. -/
def insertMethod {V E : Type} (self : Document V)
    (result : Except E (InsertOneResult V)) : Document V × Option E :=
  match result with
  | .error e => (self, some e)
  | .ok r => ({ self with id := some r.inserted_id }, none)

/-- Python object identity: a heap of `Document` instances indexed by
natural-number references. -/
abbrev Heap (V : Type) : Type := List (Document V)

/-- Dereference a heap reference. -/
def getRef {V : Type} (h : Heap V) (r : Nat) : Option (Document V) :=
  List.get? h r

/-- Mutate the instance a reference points to (in-place assignment). -/
def setRef {V : Type} (h : Heap V) (r : Nat) (d : Document V) : Heap V :=
  List.set h r d

/-- Append a freshly constructed instance to the heap; its reference is
the old heap length. -/
def allocRef {V : Type} (h : Heap V) (d : Document V) : Heap V × Nat :=
  (h ++ [d], List.length h)

/-- `Document.replace` (document.py lines 217-227): after the driver's
`replace_one` (abstracted as `result`), set `replace.id` from
`result.upserted_id` when that is truthy, else inherit `self.id` when
`replace.id is None`; return the `replace` argument itself. `selfRef` and
`otherRef` are the references of `self` and of the `replace` argument; the
returned reference is the operation's return value. -/
def replaceMethod {V : Type} (h : Heap V) (selfRef otherRef : Nat)
    (result : ReplaceOneResult V) : Option (Heap V × Nat) := do
  let s ← getRef h selfRef
  let o ← getRef h otherRef
  let o2 :=
    if result.upserted_id.isSome then { o with id := result.upserted_id }
    else if o.id.isNone then { o with id := s.id }
    else o
  some (setRef h otherRef o2, otherRef)

/-- `Document.update` (document.py lines 229-238) on the default
`reload=False` path: `assert self.id is not None` fails before anything is
sent; otherwise one `update_one({"_id": self.id}, update)` call is made
and the method returns `result.modified_count == 1`. The first component
records the driver calls made. (The optional `reload=True` path re-runs
`reload`, modelled separately by `reloadMethod`.) -/
def updateMethod {V : Type} (self : Document V) (updateSpec : List (String × V))
    (result : UpdateResult) : List (DriverCall V) × Except OpError Bool :=
  match self.id with
  | none => ([], .error .assertionError)
  | some i =>
    ([DriverCall.updateOne [(reservedKey, i)] updateSpec],
     .ok (decide (result.modified_count = 1)))

/-- `Document.reload` (document.py lines 240-250) on a single instance:
`assert self.id is not None`; fetch `find_one({"_id": self.id})` from the
store (the driver abstracted as a map from identifier to stored document);
when the fetch returns `None`, `self.__class__(**None)` raises a
`TypeError`; otherwise validate the fetched document into a fresh state. -/
def reloadMethod {V : Type} (decls : List (String × V)) (self : Document V)
    (store : V → Option (List (String × V))) : Except OpError (Document V) :=
  match self.id with
  | none => .error .assertionError
  | some i =>
    match store i with
    | none => .error .typeError
    | some doc => .ok (validateDoc decls doc)

/-- Heap-level `Document.reload`: the final
`object.__setattr__(self, "__dict__", updated.__dict__)` swaps the state
of the very instance `r` points to, so every holder of `r` observes the
fresh state. The outer `Option` is `none` only for a dangling reference (a
model artifact that cannot arise in Python). -/
def reloadH {V : Type} (decls : List (String × V)) (h : Heap V) (r : Nat)
    (store : V → Option (List (String × V))) : Option (Except OpError (Heap V)) :=
  match getRef h r with
  | none => none
  | some self =>
    match reloadMethod decls self store with
    | .error e => some (.error e)
    | .ok upd => some (.ok (setRef h r upd))

/-- `Document.find_one` (document.py lines 276-285): the driver's result
(abstracted as `result`) is validated into a record when truthy (a
non-null, non-empty document), else the method returns `None`. -/
def findOneMethod {V : Type} [DecidableEq V] (decls : List (String × V))
    (result : Option (List (String × V))) : Option (Document V) :=
  match result with
  | none => none
  | some doc => if doc = [] then none else some (validateDoc decls doc)

/-- `Document.find_one_and_replace` (document.py lines 297-317). The
replacement is either a raw document (`Sum.inl`) or a reference to a
`Document` instance (`Sum.inr`); `isinstCls` is the external
`isinstance(replacement, cls)` test (the replacement instance may be of an
unrelated record type), `returnAfter` is `return_document ==
ReturnDocument.AFTER`, and `result` is the driver's matched document, if
any. A null driver result returns `None` with the heap untouched; else the
result is validated, and either the replacement instance is mutated in
place and its own reference returned, or a freshly allocated instance's
reference is returned. -/
def findOneAndReplaceMethod {V : Type} (decls : List (String × V)) (h : Heap V)
    (replacement : Sum (List (String × V)) Nat) (returnAfter isinstCls : Bool)
    (result : Option (List (String × V))) : Option (Heap V × Option Nat) :=
  match result with
  | none => some (h, none)
  | some doc =>
    let inst := validateDoc decls doc
    match replacement with
    | .inr r =>
      if returnAfter && isinstCls then
        match getRef h r with
        | none => none
        | some _ => some (setRef h r inst, some r)
      else
        some ((allocRef h inst).1, some (allocRef h inst).2)
    | .inl _ => some ((allocRef h inst).1, some (allocRef h inst).2)

/-- A collection handle as created by the driver's `get_collection`: it
records the database it was created against (database handles identified
by a `Nat`), the collection name, and the four configuration policies
passed along. -/
structure CollectionHandle (V : Type) where
  database : Nat
  name : Option String
  codec_options : Option V
  read_preference : Option V
  write_concern : Option V
  read_concern : Option V
deriving DecidableEq, Repr

/-- The driver's `db.get_collection(meta.collection, codec_options=...,
read_preference=..., write_concern=..., read_concern=...)` call made by
`Document.collection` (document.py lines 172-178). -/
def getCollection {V : Type} (db : Nat) (meta : MongoConfig V) : CollectionHandle V :=
  ⟨db, meta.collection, meta.codec_options, meta.read_preference,
   meta.write_concern, meta.read_concern⟩

/-- The per-class `__collection__` attribute state of a linear class chain
`Document = class 0, class 1, ..., class n` (class `i`'s parent is class
`i - 1`). Entry `i` is class `i`'s own `__dict__` slot for
`__collection__`: `none` when the class dict has no such entry, `some
none` for an entry holding `None` (as `Document` itself declares on line
131), `some (some handle)` for a cached handle. -/
abbrev CollAttr (V : Type) : Type := List (Option (Option (CollectionHandle V)))

/-- Python class-attribute lookup of `cls.__collection__`: walk from the
class itself up through its ancestors and return the first class dict
entry found (`none` when no class on the chain has one). -/
def lookupCollectionAttr {V : Type} (st : CollAttr V) : Nat → Option (CollectionHandle V)
  | 0 =>
    match List.get? st 0 with
    | some (some e) => e
    | _ => none
  | i + 1 =>
    match List.get? st (i + 1) with
    | some (some e) => e
    | _ => lookupCollectionAttr st i

/-- `Document.collection` (document.py lines 163-179) for class `i` of the
chain: read `cls.__collection__` (inherited class-attribute lookup); when
it is `None` or its `database` is not the currently bound database `db`,
create a fresh handle from the class's own `__mongo__` config `meta` and
store it in class `i`'s own dict (`cls.__collection__ = ...` assigns on
`cls` itself); return the handle and the new attribute state. -/
def collectionMethod {V : Type} (st : CollAttr V) (i : Nat) (meta : MongoConfig V)
    (db : Nat) : CollectionHandle V × CollAttr V :=
  match lookupCollectionAttr st i with
  | some h =>
    if h.database = db then (h, st)
    else
      let fresh := getCollection db meta
      (fresh, List.set st i (some (some fresh)))
  | none =>
    let fresh := getCollection db meta
    (fresh, List.set st i (some (some fresh)))

lemma chainEffective_append {V : Type} (chain : List (Option (MongoConfig V)))
    (own : Option (MongoConfig V)) :
    chainEffective (chain ++ [own]) = resolveMongo [chainEffective chain] own := by
  simp [chainEffective, List.foldl_append]

/-- C1: for every record-type hierarchy (a root-first chain of declared
`Mongo` override sets) and every storage-config field (`collection`,
`codec_options`, `read_preference`, `write_concern`, `read_concern`), the
effective config resolved by the `DocumentMetaclass` merge equals the
value declared by the deepest type in the chain that set that field
(`deepestSet`); in particular a field set anywhere in the chain stays set
unless a more-derived type overrides it with a non-null value, regardless
of how many shallower ancestors also set it. -/
theorem chain_deepest_override_wins (V : Type) (chain : List (Option (MongoConfig V))) :
    (chainEffective chain).collection
        = deepestSet (chain.map fun o => o.bind MongoConfig.collection)
    ∧ (chainEffective chain).codec_options
        = deepestSet (chain.map fun o => o.bind MongoConfig.codec_options)
    ∧ (chainEffective chain).read_preference
        = deepestSet (chain.map fun o => o.bind MongoConfig.read_preference)
    ∧ (chainEffective chain).write_concern
        = deepestSet (chain.map fun o => o.bind MongoConfig.write_concern)
    ∧ (chainEffective chain).read_concern
        = deepestSet (chain.map fun o => o.bind MongoConfig.read_concern) :=
  ⟨chainEffective_field _ (fun _ _ => rfl) rfl chain,
   chainEffective_field _ (fun _ _ => rfl) rfl chain,
   chainEffective_field _ (fun _ _ => rfl) rfl chain,
   chainEffective_field _ (fun _ _ => rfl) rfl chain,
   chainEffective_field _ (fun _ _ => rfl) rfl chain⟩

/-- C2: declaring a type whose merged storage config still has a null
`collection` after resolving its full ancestor chain fails inside
`DocumentMetaclass.__new__` — i.e. at type-declaration time — with the
definition error, and a type whose chain does declare a collection is
registered without error (the declaration returns its merged config). -/
theorem declaration_requires_collection (V : Type) (name : String)
    (chain : List (Option (MongoConfig V))) (own : Option (MongoConfig V)) :
    (documentMetaclassNew name [chainEffective chain] own false
        = .error (name ++ " does not define a collection.")
      ↔ (chainEffective (chain ++ [own])).collection = none)
    ∧ ((chainEffective (chain ++ [own])).collection ≠ none →
        documentMetaclassNew name [chainEffective chain] own false
          = .ok (chainEffective (chain ++ [own]))) := by
  rw [chainEffective_append]
  unfold documentMetaclassNew
  by_cases hm : (resolveMongo [chainEffective chain] own).collection = none <;>
    simp [hm]

/-- Witness for C2 at a concrete hierarchy: a direct subclass of the root
declaring collection `"users"` resolves a non-null collection and is
registered without error. -/
theorem declaration_requires_collection_witness :
    ((chainEffective (([] : List (Option (MongoConfig Nat)))
          ++ [some ⟨some ("users"), none, none, none, none⟩])).collection ≠ none)
    ∧ documentMetaclassNew ("User") [chainEffective ([] : List (Option (MongoConfig Nat)))]
        (some ⟨some ("users"), none, none, none, none⟩) false
      = .ok (chainEffective (([] : List (Option (MongoConfig Nat)))
          ++ [some ⟨some ("users"), none, none, none, none⟩])) :=
  ⟨by decide,
   (declaration_requires_collection Nat ("User") []
     (some ⟨some ("users"), none, none, none, none⟩)).2 (by decide)⟩

lemma mem_dictByAlias {V : Type} [DecidableEq V] (self : Document V)
    (k : String) (v : V) :
    (k, v) ∈ dictByAliasExcludeDefaults self ↔
      ((k = reservedKey ∧ self.id = some v)
        ∨ ∃ f ∈ self.fields, f.alias_ = k ∧ f.value = v ∧ f.value ≠ f.default) := by
  have hstep : ∀ f : PyField V,
      ((if f.value = f.default then none else some (f.alias_, f.value))
          = some (k, v))
        ↔ (f.alias_ = k ∧ f.value = v ∧ f.value ≠ f.default) := by
    intro f
    by_cases h : f.value = f.default <;> simp [h, Prod.ext_iff, And.comm]
  unfold dictByAliasExcludeDefaults
  cases hid : self.id with
  | none =>
    simp only [List.nil_append, List.mem_filterMap, hstep]
    constructor
    · rintro ⟨f, hf, h1, h2, h3⟩
      exact Or.inr ⟨f, hf, h1, h2, h3⟩
    · rintro (⟨_, h⟩ | ⟨f, hf, h1, h2, h3⟩)
      · cases h
      · exact ⟨f, hf, h1, h2, h3⟩
  | some i =>
    simp only [List.singleton_append, List.mem_cons, List.mem_filterMap, hstep,
      Prod.ext_iff]
    constructor
    · rintro (⟨h1, h2⟩ | ⟨f, hf, h1, h2, h3⟩)
      · exact Or.inl ⟨h1, by rw [h2]⟩
      · exact Or.inr ⟨f, hf, h1, h2, h3⟩
    · rintro (⟨h1, h2⟩ | ⟨f, hf, h1, h2, h3⟩)
      · exact Or.inl ⟨h1, by injection h2 with h2; rw [h2]⟩
      · exact Or.inr ⟨f, hf, h1, h2, h3⟩

/-- C3: with no include/exclude filters, `Document.mongo` contains exactly
the fields whose values differ from their declared defaults, keyed by
storage alias; if the identifier is unset the reserved `"_id"` key is
absent from the result entirely; and a record all of whose non-identifier
fields hold their defaults and whose identifier is unset serializes to the
empty mapping. (Hypothesis: no non-identifier field uses the reserved
alias.) -/
theorem mongo_exactly_nondefault (V : Type) [DecidableEq V] (self : Document V)
    (hwf : ∀ f ∈ self.fields, f.alias_ ≠ reservedKey) :
    (∀ k v, (k, v) ∈ mongoMethod self ↔
        ((k = reservedKey ∧ self.id = some v)
          ∨ ∃ f ∈ self.fields, f.alias_ = k ∧ f.value = v ∧ f.value ≠ f.default))
    ∧ (self.id = none → ∀ v, (reservedKey, v) ∉ mongoMethod self)
    ∧ ((self.id = none ∧ ∀ f ∈ self.fields, f.value = f.default) →
        mongoMethod self = []) := by
  have hmem : ∀ k v, (k, v) ∈ mongoMethod self ↔
      ((k = reservedKey ∧ self.id = some v)
        ∨ ∃ f ∈ self.fields, f.alias_ = k ∧ f.value = v ∧ f.value ≠ f.default) := by
    intro k v
    unfold mongoMethod
    cases hid : self.id with
    | none =>
      rw [List.mem_filter]
      constructor
      · rintro ⟨hm, _⟩
        rcases (mem_dictByAlias self k v).1 hm with ⟨h1, h2⟩ | h
        · rw [hid] at h2; cases h2
        · exact Or.inr h
      · rintro (⟨h1, h2⟩ | ⟨f, hf, h1, h2, h3⟩)
        · cases h2
        · refine ⟨(mem_dictByAlias self k v).2 (Or.inr ⟨f, hf, h1, h2, h3⟩), ?_⟩
          simp only [decide_eq_true_eq]
          exact h1 ▸ hwf f hf
    | some i =>
      exact (mem_dictByAlias self k v).trans (by rw [hid])
  refine ⟨hmem, ?_, ?_⟩
  · intro hid v hm
    rcases (hmem reservedKey v).1 hm with ⟨_, h2⟩ | ⟨f, hf, h1, _, _⟩
    · rw [hid] at h2; cases h2
    · exact hwf f hf h1
  · rintro ⟨hid, hdef⟩
    unfold mongoMethod dictByAliasExcludeDefaults
    rw [hid]
    have : self.fields.filterMap (fun f =>
        if f.value = f.default then none else some (f.alias_, f.value)) = [] := by
      rw [List.filterMap_eq_nil_iff]
      intro f hf
      simp [hdef f hf]
    simp [this]

/-- Witness for C3: a record with identifier unset, one field at its
default and one field changed serializes to exactly the changed field. -/
theorem mongo_exactly_nondefault_witness :
    (∀ f ∈ [(⟨"x", 0, 0⟩ : PyField Nat), ⟨"y", 0, 5⟩], f.alias_ ≠ reservedKey)
    ∧ ((∀ k v, (k, v) ∈ mongoMethod (⟨none, [⟨"x", 0, 0⟩, ⟨"y", 0, 5⟩]⟩ : Document Nat) ↔
          ((k = reservedKey ∧ (⟨none, [⟨"x", 0, 0⟩, ⟨"y", 0, 5⟩]⟩ : Document Nat).id = some v)
            ∨ ∃ f ∈ (⟨none, [⟨"x", 0, 0⟩, ⟨"y", 0, 5⟩]⟩ : Document Nat).fields,
                f.alias_ = k ∧ f.value = v ∧ f.value ≠ f.default))
      ∧ ((⟨none, [⟨"x", 0, 0⟩, ⟨"y", 0, 5⟩]⟩ : Document Nat).id = none →
          ∀ v, (reservedKey, v) ∉ mongoMethod (⟨none, [⟨"x", 0, 0⟩, ⟨"y", 0, 5⟩]⟩ : Document Nat))
      ∧ (((⟨none, [⟨"x", 0, 0⟩, ⟨"y", 0, 5⟩]⟩ : Document Nat).id = none
            ∧ ∀ f ∈ (⟨none, [⟨"x", 0, 0⟩, ⟨"y", 0, 5⟩]⟩ : Document Nat).fields,
                f.value = f.default) →
          mongoMethod (⟨none, [⟨"x", 0, 0⟩, ⟨"y", 0, 5⟩]⟩ : Document Nat) = [])) :=
  ⟨by decide, mongo_exactly_nondefault Nat ⟨none, [⟨"x", 0, 0⟩, ⟨"y", 0, 5⟩]⟩ (by decide)⟩

/-- C4: for every call `replace(self, other)` (heap `[s, o]`, `self` at
reference 0, `other` at reference 1): when the driver reports an upserted
id, `other`'s identifier is set to it; otherwise, when `other`'s
identifier was unset, it is set to `self`'s identifier; otherwise it is
unchanged; `other`'s other fields are untouched, `self` is untouched, and
the returned value is the replacement instance `other` itself (its
reference). -/
theorem replace_id_propagation (V : Type) (s o : Document V)
    (res : ReplaceOneResult V) :
    ∃ o2 : Document V,
      replaceMethod [s, o] 0 1 res = some ([s, o2], 1)
      ∧ o2.fields = o.fields
      ∧ o2.id = (if res.upserted_id.isSome then res.upserted_id
                 else if o.id.isNone then s.id else o.id) := by
  refine ⟨if res.upserted_id.isSome then { o with id := res.upserted_id }
          else if o.id.isNone then { o with id := s.id } else o, ?_, ?_, ?_⟩
  · simp [replaceMethod, getRef, setRef]
  · split_ifs <;> rfl
  · split_ifs <;> rfl

/-- C5: `Document.insert` binds the instance's identifier to the
driver-reported inserted id exactly when the driver's `insert_one`
succeeds; when the driver raises, the error propagates and the instance is
unchanged, because the identifier is assigned only after a successful
response. -/
theorem insert_binds_id_only_on_success (V E : Type) (self : Document V)
    (r : InsertOneResult V) (e : E) :
    insertMethod self (.ok r : Except E (InsertOneResult V))
        = ({ self with id := some r.inserted_id }, none)
    ∧ (insertMethod self (.ok r : Except E (InsertOneResult V))).1.id
        = some r.inserted_id
    ∧ (insertMethod self (.ok r : Except E (InsertOneResult V))).1.fields
        = self.fields
    ∧ insertMethod self (.error e : Except E (InsertOneResult V)) = (self, some e) :=
  ⟨rfl, rfl, rfl, rfl⟩

/-- C6: on a held instance (reference 1 of the heap, also held alongside
an unrelated instance at reference 0) with a set identifier `i`,
`Document.reload` re-fetches the stored document by that identifier and
swaps the field state in place: the same reference now dereferences to the
freshly validated state, the new state's identifier is still `i`, and the
rest of the heap is untouched. -/
theorem reload_swaps_state_in_place (V : Type) [DecidableEq V]
    (decls rest : List (String × V)) (flds : List (PyField V))
    (other : Document V) (i : V) :
    reloadH decls [other, ⟨some i, flds⟩] 1
        (fun v => if v = i then some ((reservedKey, i) :: rest) else none)
      = some (.ok [other, validateDoc decls ((reservedKey, i) :: rest)])
    ∧ (validateDoc decls ((reservedKey, i) :: rest)).id = some i
    ∧ getRef [other, validateDoc decls ((reservedKey, i) :: rest)] 0 = some other := by
  refine ⟨?_, ?_, rfl⟩
  · simp [reloadH, reloadMethod, getRef, setRef]
  · simp [validateDoc, lookupKey, reservedKey]

/-- C7: `find_one_and_replace` with `return_document = AFTER`, a
replacement that is an instance of the calling type (reference 0), and a
matched document returns that same reference with the instance mutated in
place to the post-replace state (no new instance is allocated); in every
other non-null-result case — `return_document = BEFORE`, a replacement
instance of another type, or a raw-document replacement — a freshly
constructed record is returned (a new reference past the old heap). -/
theorem find_one_and_replace_inplace_or_fresh (V : Type)
    (decls doc rawRepl : List (String × V)) (repl : Document V)
    (after isinst : Bool) :
    findOneAndReplaceMethod decls [repl] (.inr 0) true true (some doc)
        = some ([validateDoc decls doc], some 0)
    ∧ findOneAndReplaceMethod decls [repl] (.inr 0) false isinst (some doc)
        = some ([repl, validateDoc decls doc], some 1)
    ∧ findOneAndReplaceMethod decls [repl] (.inr 0) after false (some doc)
        = some ([repl, validateDoc decls doc], some 1)
    ∧ findOneAndReplaceMethod decls [repl] (.inl rawRepl) after isinst (some doc)
        = some ([repl, validateDoc decls doc], some 1) := by
  refine ⟨rfl, rfl, ?_, rfl⟩
  simp [findOneAndReplaceMethod, allocRef]

/-- C8: `Document.update` requires a set identifier: with the identifier
unset it fails with the assertion fault and sends nothing to the driver;
with the identifier set it sends exactly one identifier-scoped
`update_one` and returns `true` if and only if exactly one document was
modified. -/
theorem update_requires_identifier (V : Type) (flds : List (PyField V)) (i : V)
    (updateSpec : List (String × V)) (res : UpdateResult) :
    updateMethod (⟨none, flds⟩ : Document V) updateSpec res
        = ([], .error .assertionError)
    ∧ updateMethod (⟨some i, flds⟩ : Document V) updateSpec res
        = ([DriverCall.updateOne [(reservedKey, i)] updateSpec],
           .ok (decide (res.modified_count = 1)))
    ∧ (decide (res.modified_count = 1) = true ↔ res.modified_count = 1) :=
  ⟨rfl, rfl, by simp⟩

/-- C9 failing input: the code, not the claim, is at fault. With the class
chain `Document` (index 0), `Base` (index 1, collection `"a"`) and its
subtype `Sub` (index 2, collection `"b"`), all bound to database 7 and no
handle cached yet: after `Base.collection()` caches Base's handle, a
`Sub.collection()` call reads that cached handle through Python class
attribute inheritance of `__collection__` and returns it as-is — the very
handle of `Base` (named `"a"`, not `Sub`'s configured `"b"`) — while
caching nothing of `Sub`'s own, contradicting the claimed exclusive
per-type ownership and the method's own docstring. -/
theorem collection_cache_shared_with_subtype :
    (collectionMethod
        (collectionMethod ([some none, none, none] : CollAttr Nat) 1
          ⟨some ("a"), none, none, none, none⟩ 7).2
        2 ⟨some ("b"), none, none, none, none⟩ 7).1
      = (collectionMethod ([some none, none, none] : CollAttr Nat) 1
          ⟨some ("a"), none, none, none, none⟩ 7).1
    ∧ (collectionMethod
        (collectionMethod ([some none, none, none] : CollAttr Nat) 1
          ⟨some ("a"), none, none, none, none⟩ 7).2
        2 ⟨some ("b"), none, none, none, none⟩ 7).1.name = some ("a")
    ∧ (collectionMethod
        (collectionMethod ([some none, none, none] : CollAttr Nat) 1
          ⟨some ("a"), none, none, none, none⟩ 7).2
        2 ⟨some ("b"), none, none, none, none⟩ 7).1.name
      ≠ (⟨some ("b"), none, none, none, none⟩ : MongoConfig Nat).collection
    ∧ List.get? (collectionMethod
        (collectionMethod ([some none, none, none] : CollAttr Nat) 1
          ⟨some ("a"), none, none, none, none⟩ 7).2
        2 ⟨some ("b"), none, none, none, none⟩ 7).2 2 = some none := by
  decide

/-- C10: on an instance whose identifier is set but matches no stored
document, `Document.reload` raises (the null `find_one` result is passed
unchecked to record construction, a `TypeError`), rather than returning a
null result or silently doing nothing — unlike `find_one`, which maps the
same absence to a null result. -/
theorem reload_missing_document_raises (V : Type) [DecidableEq V]
    (decls : List (String × V)) (flds : List (PyField V)) (i : V)
    (other : Document V) :
    reloadH decls [other, ⟨some i, flds⟩] 1 (fun _ => none)
        = some (.error .typeError)
    ∧ reloadMethod decls (⟨some i, flds⟩ : Document V) (fun _ => none)
        = .error .typeError
    ∧ findOneMethod decls (none : Option (List (String × V)))
        = (none : Option (Document V)) :=
  ⟨rfl, rfl, rfl⟩

end MotorODM
